import Mathlib

/-!
Shallow embedding of the heka `pipeline/config.go` plugin-configuration
subsystem.  Pure data is modelled by Lean structures; the mutable
`PipelineConfig` / package-global registry state is threaded explicitly;
channels are modelled as lists of the values they hold (a send appends, a
receive pops the head, and a receive from an empty channel is the explicit
`blocked` outcome).  Go `uint` is modelled as `Nat` reduced modulo `2 ^ 64`
at the one place the source increments it.
-/

namespace Heka

/-- Successor of the largest Go `uint` value (`uint` is 64 bits wide on the
platforms heka targets), so Go unsigned wraparound is `% goUintSize`. -/
def goUintSize : Nat := 2 ^ 64

/-- Association-list lookup standing in for a Go map read. -/
def lookupAssoc {κ α : Type} [DecidableEq κ] (m : List (κ × α)) (k : κ) :
    Option α :=
  match m with
  | [] => none
  | (k', v) :: rest => if k' = k then some v else lookupAssoc rest k

/-- Association-list insert standing in for a Go map assignment
(overwrites an existing binding for the key, else appends). -/
def insertAssoc {κ α : Type} [DecidableEq κ] (m : List (κ × α)) (k : κ) (v : α) :
    List (κ × α) :=
  match m with
  | [] => [(k, v)]
  | (k', v') :: rest =>
      if k' = k then (k, v) :: rest else (k', v') :: insertAssoc rest k v

/-- Association-list delete standing in for Go `delete(m, k)`. -/
def eraseAssoc {κ α : Type} [DecidableEq κ] (m : List (κ × α)) (k : κ) :
    List (κ × α) :=
  match m with
  | [] => []
  | (k', v') :: rest =>
      if k' = k then eraseAssoc rest k else (k', v') :: eraseAssoc rest k

/-- The `message.Message` handle: the four fields the core stamps.
`none` models a field that has never been set. -/
structure Message where
  timestamp : Option Int
  uuid : Option Nat
  hostname : Option String
  pid : Option Int
  deriving DecidableEq, Repr

/-- `PipelinePack`: reusable carrier around one `Message`. -/
structure PipelinePack where
  message : Message
  refCount : Nat
  msgLoopCount : Nat
  deriving DecidableEq, Repr

/-- A plugin instance.  Plugin code is external to `config.go`; an instance
is identified by the factory (type name) that minted it and a per-wrapper
instance index (`0` for the instance `loadSection` creates and initializes
itself, `i` for the `i`-th instance later minted through the wrapper). -/
structure Plugin where
  typeName : String
  instanceIdx : Nat
  deriving DecidableEq, Repr

/-- The value `LoadConfigStruct` produces and `Init` consumes (opaque to
the core; carried around as data). -/
structure ConfigVal where
  raw : String
  deriving DecidableEq, Repr

/-- `PluginWrapper`: name plus the captured plugin factory (identified by
the resolved plugin type) and the captured config value (the Go
`configCreator` closure returns this same value on every call). -/
structure PluginWrapper where
  name : String
  pluginType : String
  configVal : ConfigVal
  deriving DecidableEq, Repr

/-- A started `DecoderRunner`: its name and the decoder plugin it wraps. -/
structure DecoderRunner where
  name : String
  plugin : Plugin
  deriving DecidableEq, Repr

/-- A per-decoder-name rendezvous channel: capacity it was allocated with
and the runners currently resident in it. -/
structure DecoderChan where
  capacity : Nat
  contents : List DecoderRunner
  deriving DecidableEq, Repr

/-- An `InputRunner` as stored by `loadSection`. -/
structure InputRunner where
  name : String
  plugin : Plugin
  deriving DecidableEq, Repr

/-- A Filter-or-Output runner (`foRunner`), also standing in for the
`FilterRunner` interface in the dynamic add/remove API.  `startErr` is the
outcome of the runner's external `Start` call (`none` = starts cleanly);
`matcher` is the compiled `MatchRunner` (identified by an id, `none` when
the section had no `message_matcher`); `inChan` identifies the runner's
inbound channel; `tickLength` is in nanoseconds. -/
structure FilterRunner where
  name : String
  plugin : Plugin
  tickLength : Nat
  matcher : Option Nat
  inChan : Nat
  startErr : Option String
  deriving DecidableEq, Repr

/-- The message router state visible to `config.go`: the two matcher lists
and the `MrChan` control channel (modelled as the list of matcher values
sent down it, in order; a runner with no matcher sends `none`). -/
structure MessageRouter where
  fMatchers : List Nat
  oMatchers : List Nat
  mrChan : List (Option Nat)
  deriving DecidableEq, Repr

/-- The package-global registries of `config.go`:
`AvailablePlugins` (only the key set matters to the core, factories being
identified by their key), `DecodersByEncoding` and
`topHeaderMessageEncoding`. -/
structure Registry where
  availablePlugins : List String
  decodersByEncoding : List (Nat × String)
  topHeaderMessageEncoding : Nat
  deriving DecidableEq, Repr

/-- `PipelineConfig`: the instantiated graph.  Channels are lists of their
resident values; the waitgroups are counters; `closedChans` records the
ids of inbound channels that have been closed (a `close` in the source). -/
structure PipelineConfig where
  InputRunners : List (String × InputRunner)
  inputWrappers : List (String × PluginWrapper)
  DecoderWrappers : List (String × PluginWrapper)
  FilterRunners : List (String × FilterRunner)
  filterWrappers : List (String × PluginWrapper)
  OutputRunners : List (String × FilterRunner)
  outputWrappers : List (String × PluginWrapper)
  router : MessageRouter
  inputRecycleChan : List PipelinePack
  injectRecycleChan : List PipelinePack
  logMsgs : List String
  filtersWg : Int
  decodersWg : Int
  decoderChannels : List (String × DecoderChan)
  allDecoders : List DecoderRunner
  closedChans : List Nat
  hostname : String
  pid : Int
  deriving DecidableEq, Repr

/-- Modelled from the spec: `GlobalConfigStruct` (defined in
`pipeline_runner.go`, which is not under `src/`): the global knobs
`config.go` reads through `Globals()` — the pool size of the two recycle
channels, the default decoder pool size, `MaxMsgLoops` and the `Stopping`
flag. -/
structure GlobalConfigStruct where
  poolSize : Nat
  decoderPoolSize : Nat
  maxMsgLoops : Nat
  stopping : Bool
  deriving DecidableEq, Repr

/-- Modelled from the spec: `DefaultGlobals()` is not under `src/`; the
spec pins the default decoder pool size at 4 (scenario S1). -/
def defaultGlobals : GlobalConfigStruct :=
  { poolSize := 100, decoderPoolSize := 4, maxMsgLoops := 4, stopping := false }

/-- Outcome of `PipelineConfig.PipelinePack`: `nil` models the Go function
returning the nil pointer, `blocked` models the receive from an empty
`injectRecycleChan` blocking forever, and `pack` returns the stamped pack
together with the post-state. -/
inductive PipelinePackResult where
  | nil : PipelinePackResult
  | blocked : PipelinePackResult
  | pack : PipelinePack → PipelineConfig → PipelinePackResult
  deriving DecidableEq, Repr

/-- `PipelineConfig.PipelinePack` (config.go lines 170-182).  `now` and
`freshUuid` are the values the environment supplies for
`time.Now().UnixNano()` and `uuid.NewRandom()`.  The Go `msgLoopCount++`
acts on a `uint`, hence the increment modulo `goUintSize`. -/
def PipelineConfig.pipelinePack (g : GlobalConfigStruct) (self : PipelineConfig)
    (now : Int) (freshUuid : Nat) (msgLoopCount : Nat) : PipelinePackResult :=
  let m := (msgLoopCount + 1) % goUintSize
  if m > g.maxMsgLoops then
    .nil
  else
    match self.injectRecycleChan with
    | [] => .blocked
    | p :: rest =>
        .pack
          { p with
            message :=
              { timestamp := some now
                uuid := some freshUuid
                hostname := some self.hostname
                pid := some self.pid }
            refCount := 1
            msgLoopCount := m }
          { self with injectRecycleChan := rest }

/-- `PipelineConfig.log` (config.go lines 372-375): buffers the message in
`logMsgs` (the `log.Println` side effect has no observable state here). -/
def PipelineConfig.log (self : PipelineConfig) (msg : String) : PipelineConfig :=
  { self with logMsgs := self.logMsgs ++ [msg] }

/-- `PipelineConfig.AddFilterRunner` (config.go lines 210-223): inserts the
runner in `FilterRunners` and bumps `filtersWg` before the `Start` attempt;
on start failure it only restores `filtersWg` and returns the wrapped
error (the map keeps the runner); on success it sends the runner's matcher
down `MrChan`.  Returns the post-state and the error. -/
def PipelineConfig.AddFilterRunner (self : PipelineConfig) (fr : FilterRunner) :
    PipelineConfig × Option String :=
  let self1 :=
    { self with
      FilterRunners := insertAssoc self.FilterRunners fr.name fr
      filtersWg := self.filtersWg + 1 }
  match fr.startErr with
  | some e =>
      ({ self1 with filtersWg := self1.filtersWg - 1 },
       some ("AddFilterRunner \x27" ++ fr.name ++ "\x27 failed to start: " ++ e))
  | none =>
      ({ self1 with
         router := { self1.router with mrChan := self1.router.mrChan ++ [fr.matcher] } },
       none)

/-- `PipelineConfig.RemoveFilterRunner` (config.go lines 227-241): refuses
while `Stopping`; otherwise, when the name is registered, sends the
runner's matcher down `MrChan`, closes the runner's inbound channel,
deletes the map entry and returns true. -/
def PipelineConfig.RemoveFilterRunner (g : GlobalConfigStruct)
    (self : PipelineConfig) (name : String) : PipelineConfig × Bool :=
  if g.stopping then
    (self, false)
  else
    match lookupAssoc self.FilterRunners name with
    | some fr =>
        ({ self with
           router := { self.router with mrChan := self.router.mrChan ++ [fr.matcher] }
           closedChans := self.closedChans ++ [fr.inChan]
           FilterRunners := eraseAssoc self.FilterRunners name },
         true)
    | none => (self, false)

/-- `MAX_HEADER_MESSAGEENCODING` (config.go line 31). -/
def MAX_HEADER_MESSAGEENCODING : Nat := 256

/-- Modelled from the spec: the wire-encoding enumeration
`Header_MessageEncoding_value` lives in the generated `message` package,
which is not under `src/`; the spec names exactly the encodings `JSON`
and `PROTOCOL_BUFFER` (bound by the built-in default decoders), small
integers below 256. -/
def headerMessageEncodingValue : List (String × Nat) :=
  [("JSON", 0), ("PROTOCOL_BUFFER", 1)]

/-- `regDecoderForHeader` (config.go lines 345-369).  Returns the
post-state of the package globals (`DecodersByEncoding`,
`topHeaderMessageEncoding`; error paths return them untouched) and the
error. -/
def regDecoderForHeader (reg : Registry) (decoderName encodingName : String) :
    Registry × Option String :=
  match lookupAssoc headerMessageEncodingValue encodingName with
  | none =>
      (reg, some ("No Header_MessageEncoding named \x27" ++ encodingName ++ "\x27"))
  | some encoding =>
      if encoding > MAX_HEADER_MESSAGEENCODING then
        (reg,
         some ("Header_MessageEncoding \x27" ++ encodingName ++ "\x27 value \x27" ++
               toString encoding ++ "\x27 higher than max \x27" ++
               toString MAX_HEADER_MESSAGEENCODING ++ "\x27"))
      else if reg.availablePlugins.contains decoderName then
        ({ reg with
           topHeaderMessageEncoding :=
             if encoding > reg.topHeaderMessageEncoding then encoding
             else reg.topHeaderMessageEncoding
           decodersByEncoding :=
             insertAssoc reg.decodersByEncoding encoding decoderName },
         none)
      else
        (reg,
         some ("No decoder named \x27" ++ decoderName ++ "\x27 registered as a plugin"))

/-- Outcome of a call into external plugin code that returns a value:
either the value, or abnormal termination (a Go panic) with its reason. -/
inductive CallOutcome (α : Type) where
  | ok : α → CallOutcome α
  | panicked : String → CallOutcome α
  deriving DecidableEq, Repr

/-- Outcome of a plugin's `Init(config)` call: clean success, an ordinary
returned error, or abnormal termination (a Go panic). -/
inductive InitOutcome where
  | ok : InitOutcome
  | fail : String → InitOutcome
  | panicked : String → InitOutcome
  deriving DecidableEq, Repr

/-- `PluginWrapper.CreateWithError` (config.go lines 296-308).  The
behavior of the external plugin code is supplied as `pluginCreator` (the
outcome of this call of the wrapper's factory) and `init` (the plugin's
`Init` behavior as a function of the plugin and the config value).  The
deferred `recover` turns a panic in either into a nil plugin and the
structured error; an ordinary `Init` error is returned alongside the
(non-nil) plugin. -/
def PluginWrapper.CreateWithError (self : PluginWrapper)
    (pluginCreator : CallOutcome Plugin)
    (init : Plugin → ConfigVal → InitOutcome) : Option Plugin × Option String :=
  match pluginCreator with
  | .panicked r =>
      (none, some ("\x27" ++ self.name ++ "\x27 Init() panicked: " ++ r))
  | .ok plugin =>
      match init plugin self.configVal with
      | .panicked r =>
          (none, some ("\x27" ++ self.name ++ "\x27 Init() panicked: " ++ r))
      | .fail e => (some plugin, some e)
      | .ok => (some plugin, none)

/-- `RetryOptions` (config.go lines 247-256). -/
structure RetryOptions where
  maxDelay : String
  delay : String
  maxRetries : Int
  deriving DecidableEq, Repr

/-- The defaults `loadSection` pre-applies before decoding a section
(config.go lines 393-397). -/
def defaultRetryOptions : RetryOptions :=
  { maxDelay := "30s", delay := "250ms", maxRetries := -1 }

/-- `PluginGlobals` (config.go lines 261-269): the section keys heka pulls
out before the rest of the config is passed to the plugin. -/
structure PluginGlobals where
  typ : String
  ticker : Nat
  encoding : String
  matcher : String
  signer : String
  poolSize : Nat
  retries : RetryOptions
  deriving DecidableEq, Repr

/-- A `PluginGlobals` with every key at its zero/default value. -/
def emptyPluginGlobals : PluginGlobals :=
  { typ := "", ticker := 0, encoding := "", matcher := "", signer := ""
    poolSize := 0, retries := defaultRetryOptions }

deriving instance DecidableEq for Except

/-- One raw config section as `loadSection` consumes it.  TOML parsing and
the plugin code called during the load are external, so the section
carries their outcomes as data: `globalsDecode` is the result of
`toml.PrimitiveDecode` into `PluginGlobals` (with the retry defaults
pre-applied; `none` = decode error with text `globalsDecodeErr`),
`configLoad` the result of `LoadConfigStruct`, `initErr` the result of the
guarded `Init` call on the first plugin instance (panics already rendered
as `Init() panicked: ...` text by the `configPlugin` closure), and
`matcherCompile` the result of `NewMatchRunner`. -/
structure TomlSection where
  globalsDecode : Option PluginGlobals
  globalsDecodeErr : String
  configLoad : Except String ConfigVal
  initErr : Option String
  matcherCompile : Except String Nat
  deriving DecidableEq, Repr

/-- The plugin-type resolution of config.go lines 405-409: the section's
`type` key when set, else the section name. -/
def resolvedPluginType (sectionName : String) (pg : PluginGlobals) : String :=
  if pg.typ = "" then sectionName else pg.typ

/-- Whether `post` is a suffix of `s`, character-wise (the four category
suffixes are ASCII, so this coincides with Go's byte-wise matching). -/
def strEndsWith (s post : String) : Bool :=
  if post.data.length ≤ s.data.length then
    decide (s.data.drop (s.data.length - post.data.length) = post.data)
  else false

/-- `PluginTypeRegex` (config.go line 37): submatch extraction for
`^.*(Decoder|Filter|Input|Output)$`.  At most one alternative can be a
suffix of any string, so testing the four suffixes in turn is exactly the
regex's submatch; `none` means the regex does not match. -/
def pluginCategoryOf (pluginType : String) : Option String :=
  if strEndsWith pluginType "Decoder" then some "Decoder"
  else if strEndsWith pluginType "Filter" then some "Filter"
  else if strEndsWith pluginType "Input" then some "Input"
  else if strEndsWith pluginType "Output" then some "Output"
  else none

/-- The decoder runner built by `makeDRunner` for slot `i` of a section
(config.go lines 475-489): named `<section>-<i>`, wrapping instance `i`
of the resolved plugin type (instance 0 is the already-initialized
plugin, instances `i ≥ 1` are minted fresh through the wrapper). -/
def mkDecoderRunner (sectionName pluginType : String) (i : Nat) : DecoderRunner :=
  { name := sectionName ++ "-" ++ toString i
    plugin := { typeName := pluginType, instanceIdx := i } }

/-- The runners put into a decoder channel of effective pool size `p`
(config.go lines 483-490): slot 0 reuses the plugin `loadSection` already
created and initialized, then the loop `for i := 1; i < p; i++` mints one
fresh plugin per remaining slot through the wrapper.  Modelled from the
spec for the minting itself: the factory is external plugin code and the
pool fill uses `Create`, which swallows errors, so each mint is modelled
as succeeding. -/
def decoderPoolRunners (sectionName pluginType : String) (p : Nat) :
    List DecoderRunner :=
  mkDecoderRunner sectionName pluginType 0 ::
    (List.range' 1 (p - 1)).map (mkDecoderRunner sectionName pluginType)

/-- `PipelineConfig.loadSection` (config.go lines 382-539).  Takes the
global config, the package-global registry state, the pipeline state, the
section name and the section; returns the new registry state, the new
pipeline state and the section's error count. -/
def PipelineConfig.loadSection (g : GlobalConfigStruct) (reg : Registry)
    (self : PipelineConfig) (sectionName : String) (sec : TomlSection) :
    Registry × PipelineConfig × Nat :=
  match sec.globalsDecode with
  | none =>
      (reg,
       self.log ("Unable to decode config for plugin: " ++ sectionName ++
                 ", error: " ++ sec.globalsDecodeErr),
       1)
  | some pg =>
      let pluginType := resolvedPluginType sectionName pg
      if ¬ reg.availablePlugins.contains pluginType then
        (reg, self.log ("No such plugin: " ++ sectionName), 1)
      else
        match sec.configLoad with
        | .error e =>
            (reg,
             self.log ("Can\x27t load config for " ++ sectionName ++ " \x27" ++
                       sectionName ++ "\x27: " ++ e),
             1)
        | .ok config =>
            match sec.initErr with
            | some e =>
                (reg,
                 self.log ("Initialization failed for \x27" ++ sectionName ++
                           "\x27: " ++ e),
                 1)
            | none =>
                match pluginCategoryOf pluginType with
                | none =>
                    (reg,
                     self.log ("Type doesn\x27t contain valid plugin name: " ++
                               pluginType),
                     1)
                | some pluginCategory =>
                    let wrapper : PluginWrapper :=
                      { name := sectionName, pluginType := pluginType
                        configVal := config }
                    let plugin : Plugin :=
                      { typeName := pluginType, instanceIdx := 0 }
                    if pluginCategory = "Decoder" then
                      let afterReg :=
                        if pg.encoding ≠ "" then
                          regDecoderForHeader reg pluginType pg.encoding
                        else (reg, none)
                      match afterReg with
                      | (_, some e) =>
                          (reg,
                           self.log ("Can\x27t register decoder \x27" ++ sectionName ++
                                     "\x27 for encoding \x27" ++ pg.encoding ++
                                     "\x27: " ++ e),
                           1)
                      | (reg', none) =>
                          let self1 :=
                            { self with
                              DecoderWrappers :=
                                insertAssoc self.DecoderWrappers sectionName wrapper }
                          let poolSize :=
                            if pg.poolSize = 0 then g.decoderPoolSize else pg.poolSize
                          let runners := decoderPoolRunners sectionName pluginType poolSize
                          (reg',
                           { self1 with
                             decodersWg := self1.decodersWg + runners.length
                             allDecoders := self1.allDecoders ++ runners
                             decoderChannels :=
                               insertAssoc self1.decoderChannels sectionName
                                 { capacity := poolSize, contents := runners } },
                           0)
                    else if pluginCategory = "Input" then
                      (reg,
                       { self with
                         InputRunners :=
                           insertAssoc self.InputRunners sectionName
                             { name := sectionName, plugin := plugin }
                         inputWrappers :=
                           insertAssoc self.inputWrappers sectionName wrapper },
                       0)
                    else
                      let tickLength :=
                        if pg.ticker ≠ 0 then pg.ticker * 1000000000 else 0
                      let matcherRes : Except String (Option Nat) :=
                        if pg.matcher ≠ "" then
                          match sec.matcherCompile with
                          | .error e => .error e
                          | .ok m => .ok (some m)
                        else .ok none
                      match matcherRes with
                      | .error e =>
                          (reg,
                           self.log ("Can\x27t create message matcher for \x27" ++
                                     sectionName ++ "\x27: " ++ e),
                           1)
                      | .ok matcher =>
                          let runner : FilterRunner :=
                            { name := sectionName, plugin := plugin
                              tickLength := tickLength, matcher := matcher
                              inChan := 0, startErr := none }
                          if pluginCategory = "Filter" then
                            (reg,
                             { self with
                               router :=
                                 { self.router with
                                   fMatchers :=
                                     match matcher with
                                     | some m => self.router.fMatchers ++ [m]
                                     | none => self.router.fMatchers }
                               FilterRunners :=
                                 insertAssoc self.FilterRunners sectionName runner
                               filterWrappers :=
                                 insertAssoc self.filterWrappers sectionName wrapper },
                             0)
                          else
                            (reg,
                             { self with
                               router :=
                                 { self.router with
                                   oMatchers :=
                                     match matcher with
                                     | some m => self.router.oMatchers ++ [m]
                                     | none => self.router.oMatchers }
                               OutputRunners :=
                                 insertAssoc self.OutputRunners sectionName runner
                               outputWrappers :=
                                 insertAssoc self.outputWrappers sectionName wrapper },
                             0)

/-- `NewPipelineConfig` (config.go lines 139-165): all maps and channels
start empty; `hostname` and `pid` are captured from the environment, so
they are parameters here.  (Pack preallocation into the recycle channels
happens outside `config.go`.) -/
def NewPipelineConfig (hostname : String) (pid : Int) : PipelineConfig :=
  { InputRunners := [], inputWrappers := [], DecoderWrappers := []
    FilterRunners := [], filterWrappers := [], OutputRunners := []
    outputWrappers := []
    router := { fMatchers := [], oMatchers := [], mrChan := [] }
    inputRecycleChan := [], injectRecycleChan := [], logMsgs := []
    filtersWg := 0, decodersWg := 0, decoderChannels := [], allDecoders := []
    closedChans := [], hostname := hostname, pid := pid }

/-- The plugin names registered by `init()` (config.go lines 581-630);
`AvailablePlugins` holds exactly these keys before any config is read. -/
def initAvailablePlugins : List String :=
  ["UdpInput", "TcpInput", "JsonDecoder", "ProtobufDecoder", "StatsdInput",
   "LogOutput", "FileOutput", "WhisperOutput", "LogfileInput", "TcpOutput",
   "StatFilter", "SandboxFilter", "LoglineDecoder", "CounterFilter",
   "SandboxManagerFilter", "DashboardOutput"]

/-- The package-global registry state after `init()` has run. -/
def initRegistry : Registry :=
  { availablePlugins := initAvailablePlugins
    decodersByEncoding := [], topHeaderMessageEncoding := 0 }

/-- The `[JsonDecoder]` section of `defaultDecoderTOML` (config.go lines
272-278) as `loadSection` receives it: only `encoding_name = "JSON"` is
set.  Modelled from the spec: the built-in `JsonDecoder` plugin (not under
`src/`) loads its (empty) default config and initializes cleanly. -/
def defaultJsonSection : TomlSection :=
  { globalsDecode := some { emptyPluginGlobals with encoding := "JSON" }
    globalsDecodeErr := "", configLoad := .ok { raw := "" }, initErr := none
    matcherCompile := .error "" }

/-- The `[ProtobufDecoder]` section of `defaultDecoderTOML` (config.go
lines 272-278): only `encoding_name = "PROTOCOL_BUFFER"` is set.
Modelled from the spec: the built-in `ProtobufDecoder` plugin (not under
`src/`) loads its (empty) default config and initializes cleanly. -/
def defaultProtobufSection : TomlSection :=
  { globalsDecode := some { emptyPluginGlobals with encoding := "PROTOCOL_BUFFER" }
    globalsDecodeErr := "", configLoad := .ok { raw := "" }, initErr := none
    matcherCompile := .error "" }

/-- The per-section loop of `LoadFromConfigFile` (config.go lines
554-558): load each section in turn, summing the error counts. -/
def loadConfigSections (g : GlobalConfigStruct) (reg : Registry)
    (self : PipelineConfig) (sections : List (String × TomlSection)) :
    Registry × PipelineConfig × Nat :=
  match sections with
  | [] => (reg, self, 0)
  | (name, sec) :: rest =>
      match self.loadSection g reg name sec with
      | (reg1, self1, n1) =>
          match loadConfigSections g reg1 self1 rest with
          | (reg2, self2, n2) => (reg2, self2, n1 + n2)

/-- `PipelineConfig.LoadFromConfigFile` (config.go lines 547-579), after
the TOML file itself has been parsed into a section list (file decoding
is external).  Loads every user section, then synthesizes the built-in
`JsonDecoder` / `ProtobufDecoder` sections when a wrapper of that name is
still absent, and fails with the summary error when any errors were
counted.  Returns the final registry state, pipeline state and error. -/
def PipelineConfig.LoadFromConfigFile (g : GlobalConfigStruct) (reg : Registry)
    (self : PipelineConfig) (configFile : List (String × TomlSection)) :
    Registry × PipelineConfig × Option String :=
  match loadConfigSections g reg self configFile with
  | (reg1, self1, n1) =>
      match
        if lookupAssoc self1.DecoderWrappers "JsonDecoder" = none then
          self1.loadSection g reg1 "JsonDecoder" defaultJsonSection
        else (reg1, self1, 0)
      with
      | (reg2, self2, n2) =>
          match
            if lookupAssoc self2.DecoderWrappers "ProtobufDecoder" = none then
              self2.loadSection g reg2 "ProtobufDecoder" defaultProtobufSection
            else (reg2, self2, 0)
          with
          | (reg3, self3, n3) =>
              let errcnt := n1 + n2 + n3
              (reg3, self3,
               if errcnt ≠ 0 then
                 some (toString errcnt ++ " errors loading plugins")
               else none)

/-! ## Concrete fixtures used by counterexamples and witnesses -/

/-- A blank pack as preallocated into a recycle channel. -/
def samplePack : PipelinePack :=
  { message := { timestamp := none, uuid := none, hostname := none, pid := none }
    refCount := 0, msgLoopCount := 0 }

/-- A fresh `PipelineConfig` on host `testhost`, pid 7. -/
def cfgEmpty : PipelineConfig := NewPipelineConfig "testhost" 7

/-- `cfgEmpty` with a single pack resident in the inject recycle pool. -/
def packPoolConfig : PipelineConfig :=
  { cfgEmpty with injectRecycleChan := [samplePack] }

/-! ## C1 and C10: `PipelinePack` -/

/-- Claim C1, as stated, is refuted at loop count `2 ^ 64 - 1`: there
`k + 1 > MaxMsgLoops` (so the claim demands that nothing is returned),
yet the `uint` increment wraps to 0 and `PipelinePack` hands out a pack. -/
theorem C1_counterexample :
    (2 ^ 64 - 1) + 1 > defaultGlobals.maxMsgLoops ∧
    PipelineConfig.pipelinePack defaultGlobals packPoolConfig 5 9 (2 ^ 64 - 1) ≠
      PipelinePackResult.nil := by
  constructor
  · decide
  · decide

/-- Claim C1 (corrected): for every `uint` loop count `k`, `PipelinePack(k)`
returns nothing iff `(k + 1) mod 2 ^ 64 > MaxMsgLoops`; otherwise it takes
the next pack from the inject recycle pool (the returned state pops
exactly that pool, so the input pool is untouched) and returns it with
`RefCount = 1`, `MsgLoopCount = (k + 1) mod 2 ^ 64`, and the timestamp,
uuid, hostname and pid fields freshly stamped. -/
theorem C1_pipelinePack_spec (g : GlobalConfigStruct) (self : PipelineConfig)
    (now : Int) (u k : Nat) (p : PipelinePack) (rest : List PipelinePack)
    (_hk : k < goUintSize) (hpool : self.injectRecycleChan = p :: rest) :
    (self.pipelinePack g now u k =
      if (k + 1) % goUintSize > g.maxMsgLoops then PipelinePackResult.nil
      else
        PipelinePackResult.pack
          { p with
            message :=
              { timestamp := some now, uuid := some u
                hostname := some self.hostname, pid := some self.pid }
            refCount := 1, msgLoopCount := (k + 1) % goUintSize }
          { self with injectRecycleChan := rest }) ∧
    (self.pipelinePack g now u k = PipelinePackResult.nil ↔
      (k + 1) % goUintSize > g.maxMsgLoops) := by
  unfold PipelineConfig.pipelinePack
  rw [hpool]
  by_cases h : (k + 1) % goUintSize > g.maxMsgLoops
  · simp [h]
  · simp [h]

/-- Evaluation of `C1_pipelinePack_spec` at loop count 3, `MaxMsgLoops`
4 and a one-pack inject pool. -/
theorem C1_witness :
    ((3 : Nat) < goUintSize ∧
      packPoolConfig.injectRecycleChan = samplePack :: []) ∧
    ((packPoolConfig.pipelinePack defaultGlobals 5 9 3 =
      if (3 + 1) % goUintSize > defaultGlobals.maxMsgLoops then
        PipelinePackResult.nil
      else
        PipelinePackResult.pack
          { samplePack with
            message :=
              { timestamp := some 5, uuid := some 9
                hostname := some packPoolConfig.hostname
                pid := some packPoolConfig.pid }
            refCount := 1, msgLoopCount := (3 + 1) % goUintSize }
          { packPoolConfig with injectRecycleChan := [] }) ∧
      (packPoolConfig.pipelinePack defaultGlobals 5 9 3 =
        PipelinePackResult.nil ↔
        (3 + 1) % goUintSize > defaultGlobals.maxMsgLoops)) :=
  ⟨⟨by decide, rfl⟩,
   C1_pipelinePack_spec defaultGlobals packPoolConfig 5 9 3 samplePack []
     (by decide) rfl⟩

/-- Claim C10: the loop-count increment is Go `uint` (wraparound modulo
`2 ^ 64`) arithmetic: at `msgLoopCount = 2 ^ 64 - 1` the increment wraps
to 0, the `> MaxMsgLoops` guard cannot trip (whatever `MaxMsgLoops` is),
and a pack is taken from the inject pool and returned with
`MsgLoopCount = 0`. -/
theorem C10_loop_count_wraparound (g : GlobalConfigStruct)
    (self : PipelineConfig) (now : Int) (u : Nat) (p : PipelinePack)
    (rest : List PipelinePack) (hpool : self.injectRecycleChan = p :: rest) :
    self.pipelinePack g now u (goUintSize - 1) =
      PipelinePackResult.pack
        { p with
          message :=
            { timestamp := some now, uuid := some u
              hostname := some self.hostname, pid := some self.pid }
          refCount := 1, msgLoopCount := 0 }
        { self with injectRecycleChan := rest } := by
  unfold PipelineConfig.pipelinePack
  rw [hpool]
  have h1 : goUintSize - 1 + 1 = goUintSize := by
    have : 0 < goUintSize := by norm_num [goUintSize]
    omega
  have h0 : (goUintSize - 1 + 1) % goUintSize = 0 := by
    rw [h1, Nat.mod_self]
  simp only [h0]
  rw [if_neg (Nat.not_lt_zero _)]

/-- Evaluation of `C10_loop_count_wraparound` on the one-pack pool. -/
theorem C10_witness :
    packPoolConfig.injectRecycleChan = samplePack :: [] ∧
    packPoolConfig.pipelinePack defaultGlobals 5 9 (goUintSize - 1) =
      PipelinePackResult.pack
        { samplePack with
          message :=
            { timestamp := some 5, uuid := some 9
              hostname := some packPoolConfig.hostname
              pid := some packPoolConfig.pid }
          refCount := 1, msgLoopCount := 0 }
        { packPoolConfig with injectRecycleChan := [] } :=
  ⟨rfl,
   C10_loop_count_wraparound defaultGlobals packPoolConfig 5 9 samplePack [] rfl⟩

/-! ## Association-list lemmas -/

/-- Looking up the key just inserted finds the inserted value. -/
theorem lookupAssoc_insertAssoc_self {κ α : Type} [DecidableEq κ]
    (m : List (κ × α)) (k : κ) (v : α) :
    lookupAssoc (insertAssoc m k v) k = some v := by
  induction m with
  | nil => simp [insertAssoc, lookupAssoc]
  | cons hd tl ih =>
      obtain ⟨k', v'⟩ := hd
      by_cases h : k' = k
      · simp [insertAssoc, lookupAssoc, h]
      · simp [insertAssoc, lookupAssoc, h, ih]

/-- Looking up a key just erased finds nothing. -/
theorem lookupAssoc_eraseAssoc_self {κ α : Type} [DecidableEq κ]
    (m : List (κ × α)) (k : κ) :
    lookupAssoc (eraseAssoc m k) k = none := by
  induction m with
  | nil => simp [eraseAssoc, lookupAssoc]
  | cons hd tl ih =>
      obtain ⟨k', v'⟩ := hd
      by_cases h : k' = k
      · simp [eraseAssoc, h, ih]
      · simp [eraseAssoc, lookupAssoc, h, ih]

/-! ## C2: `AddFilterRunner` -/

/-- A filter runner whose `Start` fails. -/
def failingRunner : FilterRunner :=
  { name := "F", plugin := { typeName := "StatFilter", instanceIdx := 0 }
    tickLength := 0, matcher := some 11, inChan := 3, startErr := some "boom" }

/-- A filter runner whose `Start` succeeds. -/
def okRunner : FilterRunner :=
  { name := "G", plugin := { typeName := "StatFilter", instanceIdx := 0 }
    tickLength := 0, matcher := some 12, inChan := 4, startErr := none }

/-- Claim C2, as stated, is refuted: after a failed `Start` the
`FilterRunners` map is NOT restored — the runner was inserted before the
start attempt and stays registered. -/
theorem C2_counterexample :
    failingRunner.startErr ≠ none ∧
    (cfgEmpty.AddFilterRunner failingRunner).1.FilterRunners ≠
      cfgEmpty.FilterRunners := by
  constructor
  · decide
  · decide

/-- Claim C2 (corrected): if the runner's `Start` fails,
`AddFilterRunner` returns the wrapped error and restores the filters
waitgroup counter to its prior value, but the runner remains registered
in `FilterRunners` (it is inserted before the start attempt and is not
removed on failure) and nothing is sent to the router; on success the
runner is stored in `FilterRunners` under its name, the waitgroup is one
higher, and its matcher is sent down the router's `MrChan` as an add
event. -/
theorem C2_addFilterRunner_spec (self : PipelineConfig) (fr : FilterRunner) :
    (∀ e, fr.startErr = some e →
      self.AddFilterRunner fr =
        ({ self with
           FilterRunners := insertAssoc self.FilterRunners fr.name fr
           filtersWg := self.filtersWg },
         some ("AddFilterRunner \x27" ++ fr.name ++ "\x27 failed to start: " ++ e))) ∧
    (fr.startErr = none →
      self.AddFilterRunner fr =
        ({ self with
           FilterRunners := insertAssoc self.FilterRunners fr.name fr
           filtersWg := self.filtersWg + 1
           router :=
             { self.router with mrChan := self.router.mrChan ++ [fr.matcher] } },
         none)) ∧
    lookupAssoc (self.AddFilterRunner fr).1.FilterRunners fr.name = some fr := by
  refine ⟨?_, ?_, ?_⟩
  · intro e he
    unfold PipelineConfig.AddFilterRunner
    rw [he]
    have h : self.filtersWg + 1 - 1 = self.filtersWg := by omega
    simp [h]
  · intro he
    unfold PipelineConfig.AddFilterRunner
    rw [he]
  · unfold PipelineConfig.AddFilterRunner
    cases fr.startErr <;> simp [lookupAssoc_insertAssoc_self]

/-- Evaluation of `C2_addFilterRunner_spec` on both a failing and a
succeeding runner over the fresh config. -/
theorem C2_witness :
    (cfgEmpty.AddFilterRunner failingRunner =
      ({ cfgEmpty with
         FilterRunners := insertAssoc cfgEmpty.FilterRunners "F" failingRunner
         filtersWg := cfgEmpty.filtersWg },
       some ("AddFilterRunner \x27F\x27 failed to start: boom"))) ∧
    (cfgEmpty.AddFilterRunner okRunner =
      ({ cfgEmpty with
         FilterRunners := insertAssoc cfgEmpty.FilterRunners "G" okRunner
         filtersWg := cfgEmpty.filtersWg + 1
         router :=
           { cfgEmpty.router with
             mrChan := cfgEmpty.router.mrChan ++ [okRunner.matcher] } },
       none)) ∧
    lookupAssoc (cfgEmpty.AddFilterRunner failingRunner).1.FilterRunners "F" =
      some failingRunner :=
  ⟨(C2_addFilterRunner_spec cfgEmpty failingRunner).1 "boom" rfl,
   (C2_addFilterRunner_spec cfgEmpty okRunner).2.1 rfl,
   (C2_addFilterRunner_spec cfgEmpty failingRunner).2.2⟩

/-! ## C9: `RemoveFilterRunner` -/

/-- Claim C9: `RemoveFilterRunner` refuses (returning false, state
untouched) while `Stopping` is set or when the name is not registered;
otherwise it sends the runner's matcher down `MrChan`, closes the
runner's inbound channel, deletes the map entry and returns true — and an
immediately repeated call on the resulting state returns false. -/
theorem C9_removeFilterRunner_spec (g : GlobalConfigStruct)
    (self : PipelineConfig) (name : String) :
    (g.stopping = true → self.RemoveFilterRunner g name = (self, false)) ∧
    (g.stopping = false → lookupAssoc self.FilterRunners name = none →
      self.RemoveFilterRunner g name = (self, false)) ∧
    (∀ fr, g.stopping = false →
      lookupAssoc self.FilterRunners name = some fr →
      self.RemoveFilterRunner g name =
        ({ self with
           router :=
             { self.router with mrChan := self.router.mrChan ++ [fr.matcher] }
           closedChans := self.closedChans ++ [fr.inChan]
           FilterRunners := eraseAssoc self.FilterRunners name },
         true) ∧
      ((self.RemoveFilterRunner g name).1.RemoveFilterRunner g name).2 =
        false) := by
  refine ⟨?_, ?_, ?_⟩
  · intro hstop
    unfold PipelineConfig.RemoveFilterRunner
    simp [hstop]
  · intro hstop hnone
    unfold PipelineConfig.RemoveFilterRunner
    simp [hstop, hnone]
  · intro fr hstop hsome
    have heq :
        self.RemoveFilterRunner g name =
          ({ self with
             router :=
               { self.router with mrChan := self.router.mrChan ++ [fr.matcher] }
             closedChans := self.closedChans ++ [fr.inChan]
             FilterRunners := eraseAssoc self.FilterRunners name },
           true) := by
      unfold PipelineConfig.RemoveFilterRunner
      simp [hstop, hsome]
    refine ⟨heq, ?_⟩
    rw [heq]
    unfold PipelineConfig.RemoveFilterRunner
    simp [hstop, lookupAssoc_eraseAssoc_self]

/-- `cfgEmpty` holding one registered filter `G`. -/
def oneFilterConfig : PipelineConfig :=
  { cfgEmpty with FilterRunners := [("G", okRunner)] }

/-- Evaluation of `C9_removeFilterRunner_spec`: both refusal paths and
the successful remove (with the repeated call refusing) on a config
holding one filter. -/
theorem C9_witness :
    (oneFilterConfig.RemoveFilterRunner
        { defaultGlobals with stopping := true } "G" =
      (oneFilterConfig, false)) ∧
    (cfgEmpty.RemoveFilterRunner defaultGlobals "G" = (cfgEmpty, false)) ∧
    (oneFilterConfig.RemoveFilterRunner defaultGlobals "G" =
      ({ oneFilterConfig with
         router :=
           { oneFilterConfig.router with
             mrChan := oneFilterConfig.router.mrChan ++ [okRunner.matcher] }
         closedChans := oneFilterConfig.closedChans ++ [okRunner.inChan]
         FilterRunners := eraseAssoc oneFilterConfig.FilterRunners "G" },
       true)) ∧
    ((oneFilterConfig.RemoveFilterRunner defaultGlobals "G").1.RemoveFilterRunner
        defaultGlobals "G").2 = false :=
  ⟨(C9_removeFilterRunner_spec { defaultGlobals with stopping := true }
      oneFilterConfig "G").1 rfl,
   (C9_removeFilterRunner_spec defaultGlobals cfgEmpty "G").2.1 rfl rfl,
   ((C9_removeFilterRunner_spec defaultGlobals oneFilterConfig "G").2.2
      okRunner rfl rfl).1,
   ((C9_removeFilterRunner_spec defaultGlobals oneFilterConfig "G").2.2
      okRunner rfl rfl).2⟩

/-! ## C3: `regDecoderForHeader` -/

/-- The branchless form of the running-maximum update at config.go lines
364-366. -/
theorem if_lt_max (a b : Nat) : (if a < b then b else a) = max a b := by
  by_cases h : a < b
  · simp [h]
    omega
  · simp [h]
    omega

/-- Every id in the wire-encoding enumeration is below 256. -/
theorem headerEncoding_lookup_lt (en : String) (id : Nat)
    (h : lookupAssoc headerMessageEncodingValue en = some id) : id < 256 := by
  simp only [headerMessageEncodingValue, lookupAssoc] at h
  by_cases h1 : "JSON" = en
  · rw [if_pos h1] at h
    injection h with h
    omega
  · rw [if_neg h1] at h
    by_cases h2 : "PROTOCOL_BUFFER" = en
    · rw [if_pos h2] at h
      injection h with h
      omega
    · rw [if_neg h2] at h
      exact absurd h (by simp)

/-- Claim C3: `regDecoderForHeader(decoderName, encodingName)` errors
exactly when the encoding name is not in the wire-encoding enumeration,
or its id is at least 256, or the decoder name is not in
`AvailablePlugins`; on success it records
`DecodersByEncoding[id] = decoderName` and raises
`topHeaderMessageEncoding` to `max(old, id)`; on error the registry state
is untouched. -/
theorem C3_regDecoderForHeader_spec (reg : Registry) (dn en : String) :
    ((regDecoderForHeader reg dn en).2 ≠ none ↔
      (lookupAssoc headerMessageEncodingValue en = none ∨
       (∃ id, lookupAssoc headerMessageEncodingValue en = some id ∧ 256 ≤ id) ∨
       reg.availablePlugins.contains dn = false)) ∧
    ((regDecoderForHeader reg dn en).2 ≠ none →
      (regDecoderForHeader reg dn en).1 = reg) ∧
    (∀ id, (regDecoderForHeader reg dn en).2 = none →
      lookupAssoc headerMessageEncodingValue en = some id →
      (regDecoderForHeader reg dn en).1.decodersByEncoding =
        insertAssoc reg.decodersByEncoding id dn ∧
      lookupAssoc (regDecoderForHeader reg dn en).1.decodersByEncoding id =
        some dn ∧
      (regDecoderForHeader reg dn en).1.topHeaderMessageEncoding =
        max reg.topHeaderMessageEncoding id ∧
      (regDecoderForHeader reg dn en).1.availablePlugins =
        reg.availablePlugins) := by
  cases hl : lookupAssoc headerMessageEncodingValue en with
  | none =>
      refine ⟨?_, ?_, ?_⟩
      · simp [regDecoderForHeader, hl]
      · intro _
        simp [regDecoderForHeader, hl]
      · intro id _ hid
        exact absurd hid (by simp)
  | some id =>
      have hlt : id < 256 := headerEncoding_lookup_lt en id hl
      have hmax : ¬ id > MAX_HEADER_MESSAGEENCODING := by
        simp only [MAX_HEADER_MESSAGEENCODING]
        omega
      by_cases hmem : dn ∈ reg.availablePlugins
      · have hdn : reg.availablePlugins.contains dn = true := by
          simpa using hmem
        refine ⟨?_, ?_, ?_⟩
        · simp only [regDecoderForHeader, hl, if_neg hmax, hdn, if_pos]
          constructor
          · intro h
            exact absurd rfl h
          · rintro (h | ⟨id', hid', hge⟩ | h)
            · exact absurd h (by simp)
            · injection hid' with hid'
              omega
            · exact absurd h (by simp)
        · intro h
          simp only [regDecoderForHeader, hl, if_neg hmax, hdn, if_pos] at h
          exact absurd rfl h
        · intro id' _ hid'
          injection hid' with hid'
          subst hid'
          have hres : regDecoderForHeader reg dn en =
              ({ reg with
                 decodersByEncoding := insertAssoc reg.decodersByEncoding id dn
                 topHeaderMessageEncoding :=
                   if reg.topHeaderMessageEncoding < id then id
                   else reg.topHeaderMessageEncoding }, none) := by
            simp [regDecoderForHeader, hl, hmax, hdn, hmem]
          rw [hres]
          exact ⟨rfl, lookupAssoc_insertAssoc_self _ _ _, if_lt_max _ _, rfl⟩
      · refine ⟨?_, ?_, ?_⟩
        · simp [regDecoderForHeader, hl, if_neg hmax, hmem]
        · intro _
          simp [regDecoderForHeader, hl, if_neg hmax, hmem]
        · intro id' hnone _
          simp [regDecoderForHeader, hl, if_neg hmax, hmem] at hnone

/-- Evaluation of `C3_regDecoderForHeader_spec`: the success path on the
`init()` registry for `JsonDecoder` bound to `JSON`, and the
unchanged-state guarantee on the error path for an unknown decoder. -/
theorem C3_witness :
    ((regDecoderForHeader initRegistry "JsonDecoder" "JSON").2 = none ∧
      lookupAssoc headerMessageEncodingValue "JSON" = some 0) ∧
    ((regDecoderForHeader initRegistry "JsonDecoder" "JSON").1.decodersByEncoding =
      insertAssoc initRegistry.decodersByEncoding 0 "JsonDecoder" ∧
     lookupAssoc
        (regDecoderForHeader initRegistry "JsonDecoder" "JSON").1.decodersByEncoding
        0 = some "JsonDecoder" ∧
     (regDecoderForHeader initRegistry "JsonDecoder" "JSON").1.topHeaderMessageEncoding =
        max initRegistry.topHeaderMessageEncoding 0 ∧
     (regDecoderForHeader initRegistry "JsonDecoder" "JSON").1.availablePlugins =
        initRegistry.availablePlugins) ∧
    ((regDecoderForHeader initRegistry "NoSuchDecoder" "JSON").2 ≠ none ∧
     (regDecoderForHeader initRegistry "NoSuchDecoder" "JSON").1 = initRegistry) :=
  ⟨⟨by decide, by decide⟩,
   (C3_regDecoderForHeader_spec initRegistry "JsonDecoder" "JSON").2.2 0
     (by decide) (by decide),
   by decide,
   (C3_regDecoderForHeader_spec initRegistry "NoSuchDecoder" "JSON").2.1
     (by decide)⟩

/-! ## C7: `PluginWrapper.CreateWithError` -/

/-- A concrete wrapper for evaluating `CreateWithError`. -/
def sampleWrapper : PluginWrapper :=
  { name := "W", pluginType := "JsonDecoder", configVal := { raw := "c" } }

/-- A concrete plugin instance. -/
def samplePlugin : Plugin := { typeName := "JsonDecoder", instanceIdx := 0 }

/-- An `Init` behavior that panics on every call. -/
def panickyInitBehavior : Plugin → ConfigVal → InitOutcome :=
  fun _ _ => InitOutcome.panicked "boom"

/-- An `Init` behavior that succeeds on every call. -/
def okInitBehavior : Plugin → ConfigVal → InitOutcome :=
  fun _ _ => InitOutcome.ok

/-- An `Init` behavior that returns an ordinary error on every call. -/
def failInitBehavior : Plugin → ConfigVal → InitOutcome :=
  fun _ _ => InitOutcome.fail "bad"

/-- Claim C7: `CreateWithError` calls the factory and then `Init` with
the config factory's value; a panic in either is caught and turned into
a nil plugin plus the structured error
`'<name>' Init() panicked: <reason>`, never propagated; a clean `Init`
returns the plugin, and an ordinary `Init` error is returned alongside
the plugin. -/
theorem C7_createWithError_spec (w : PluginWrapper)
    (init : Plugin → ConfigVal → InitOutcome) (r : String) :
    (w.CreateWithError (CallOutcome.panicked r) init =
      (none, some ("\x27" ++ w.name ++ "\x27 Init() panicked: " ++ r))) ∧
    (∀ p, init p w.configVal = InitOutcome.panicked r →
      w.CreateWithError (CallOutcome.ok p) init =
        (none, some ("\x27" ++ w.name ++ "\x27 Init() panicked: " ++ r))) ∧
    (∀ p, init p w.configVal = InitOutcome.ok →
      w.CreateWithError (CallOutcome.ok p) init = (some p, none)) ∧
    (∀ p e, init p w.configVal = InitOutcome.fail e →
      w.CreateWithError (CallOutcome.ok p) init = (some p, some e)) := by
  refine ⟨rfl, ?_, ?_, ?_⟩
  · intro p h
    simp [PluginWrapper.CreateWithError, h]
  · intro p h
    simp [PluginWrapper.CreateWithError, h]
  · intro p e h
    simp [PluginWrapper.CreateWithError, h]

/-- Evaluation of `C7_createWithError_spec` on a factory panic, an `Init`
panic, a clean `Init` and an `Init` error. -/
theorem C7_witness :
    (sampleWrapper.CreateWithError (CallOutcome.panicked "boom")
        okInitBehavior =
      (none, some ("\x27W\x27 Init() panicked: boom"))) ∧
    (sampleWrapper.CreateWithError (CallOutcome.ok samplePlugin)
        panickyInitBehavior =
      (none, some ("\x27W\x27 Init() panicked: boom"))) ∧
    (sampleWrapper.CreateWithError (CallOutcome.ok samplePlugin)
        okInitBehavior = (some samplePlugin, none)) ∧
    (sampleWrapper.CreateWithError (CallOutcome.ok samplePlugin)
        failInitBehavior = (some samplePlugin, some "bad")) :=
  ⟨(C7_createWithError_spec sampleWrapper okInitBehavior "boom").1,
   (C7_createWithError_spec sampleWrapper panickyInitBehavior "boom").2.1
     samplePlugin rfl,
   (C7_createWithError_spec sampleWrapper okInitBehavior "boom").2.2.1
     samplePlugin rfl,
   (C7_createWithError_spec sampleWrapper failInitBehavior "boom").2.2.2
     samplePlugin "bad" rfl⟩

/-! ## C6: plugin type resolution and categorization -/

/-- The four plugin categories, in the order the regex alternation lists
them. -/
def pluginCategories : List String := ["Decoder", "Filter", "Input", "Output"]

/-- A registry that also has a plugin registered under a name matching no
category suffix. -/
def weirdRegistry : Registry :=
  { initRegistry with availablePlugins := "Weird" :: initAvailablePlugins }

/-- Claim C6: the plugin type resolves to the section's `type` key when
set and to the section name otherwise; a resolved type ending in exactly
one of the four category suffixes is classified as that suffix; a
resolved type ending in none of them makes the section fail with one
counted error and the corresponding log line. -/
theorem C6_plugin_type_spec :
    (∀ name pg, pg.typ = "" → resolvedPluginType name pg = name) ∧
    (∀ name pg, pg.typ ≠ "" → resolvedPluginType name pg = pg.typ) ∧
    (∀ t c, c ∈ pluginCategories → strEndsWith t c = true →
      (∀ c', c' ∈ pluginCategories → c' ≠ c → strEndsWith t c' = false) →
      pluginCategoryOf t = some c) ∧
    (∀ t, (∀ c, c ∈ pluginCategories → strEndsWith t c = false) →
      pluginCategoryOf t = none) ∧
    (∀ g reg self name pg derr cfgv mc,
      reg.availablePlugins.contains (resolvedPluginType name pg) = true →
      pluginCategoryOf (resolvedPluginType name pg) = none →
      PipelineConfig.loadSection g reg self name
        { globalsDecode := some pg, globalsDecodeErr := derr
          configLoad := Except.ok cfgv, initErr := none
          matcherCompile := mc } =
        (reg,
         self.log ("Type doesn\x27t contain valid plugin name: " ++
           resolvedPluginType name pg),
         1)) := by
  refine ⟨?_, ?_, ?_, ?_, ?_⟩
  · intro name pg h
    simp [resolvedPluginType, h]
  · intro name pg h
    simp [resolvedPluginType, h]
  · intro t c hc hends hothers
    simp only [pluginCategories, List.mem_cons, List.not_mem_nil, or_false] at hc
    rcases hc with rfl | rfl | rfl | rfl
    · simp [pluginCategoryOf, hends]
    · have h1 := hothers "Decoder" (by simp [pluginCategories]) (by decide)
      simp [pluginCategoryOf, h1, hends]
    · have h1 := hothers "Decoder" (by simp [pluginCategories]) (by decide)
      have h2 := hothers "Filter" (by simp [pluginCategories]) (by decide)
      simp [pluginCategoryOf, h1, h2, hends]
    · have h1 := hothers "Decoder" (by simp [pluginCategories]) (by decide)
      have h2 := hothers "Filter" (by simp [pluginCategories]) (by decide)
      have h3 := hothers "Input" (by simp [pluginCategories]) (by decide)
      simp [pluginCategoryOf, h1, h2, h3, hends]
  · intro t h
    have h1 := h "Decoder" (by simp [pluginCategories])
    have h2 := h "Filter" (by simp [pluginCategories])
    have h3 := h "Input" (by simp [pluginCategories])
    have h4 := h "Output" (by simp [pluginCategories])
    simp [pluginCategoryOf, h1, h2, h3, h4]
  · intro g reg self name pg derr cfgv mc hcont hcat
    have hmem : resolvedPluginType name pg ∈ reg.availablePlugins := by
      simpa using hcont
    simp [PipelineConfig.loadSection, hmem, hcat]

/-- Evaluation of `C6_plugin_type_spec`: type-key resolution, the
classification of `StatFilter`, the non-classification of `Weird`, and
the counted error for a section resolving to `Weird`. -/
theorem C6_witness :
    (resolvedPluginType "A" { emptyPluginGlobals with typ := "JsonDecoder" } =
      "JsonDecoder") ∧
    (resolvedPluginType "A" emptyPluginGlobals = "A") ∧
    (pluginCategoryOf "StatFilter" = some "Filter") ∧
    (pluginCategoryOf "Weird" = none) ∧
    (PipelineConfig.loadSection defaultGlobals weirdRegistry cfgEmpty "Weird"
        { globalsDecode := some emptyPluginGlobals, globalsDecodeErr := ""
          configLoad := Except.ok { raw := "" }, initErr := none
          matcherCompile := Except.error "" } =
      (weirdRegistry,
       cfgEmpty.log ("Type doesn\x27t contain valid plugin name: " ++
         resolvedPluginType "Weird" emptyPluginGlobals),
       1)) :=
  ⟨C6_plugin_type_spec.2.1 "A" { emptyPluginGlobals with typ := "JsonDecoder" }
     (by decide),
   C6_plugin_type_spec.1 "A" emptyPluginGlobals rfl,
   C6_plugin_type_spec.2.2.1 "StatFilter" "Filter" (by decide) (by decide)
     (by decide),
   C6_plugin_type_spec.2.2.2.1 "Weird" (by decide),
   C6_plugin_type_spec.2.2.2.2 defaultGlobals weirdRegistry cfgEmpty "Weird"
     emptyPluginGlobals "" { raw := "" } (Except.error "") (by decide)
     (by decide)⟩

/-! ## C4: decoder pool construction -/

/-- The decoder pool holds `p` runners when the effective pool size is
`p ≥ 1`. -/
theorem decoderPoolRunners_length (n t : String) (p : Nat) (hp : 1 ≤ p) :
    (decoderPoolRunners n t p).length = p := by
  simp [decoderPoolRunners]
  omega

/-- Slot `i` of the decoder pool is the runner named `<n>-<i>` wrapping
plugin instance `i`. -/
theorem decoderPoolRunners_getElem (n t : String) (p i : Nat) (hi : i < p) :
    (decoderPoolRunners n t p)[i]? = some (mkDecoderRunner n t i) := by
  cases i with
  | zero => simp [decoderPoolRunners]
  | succ j =>
      have hj : j < p - 1 := by omega
      simp only [decoderPoolRunners, List.getElem?_cons_succ, List.getElem?_map]
      rw [List.getElem?_range' _ _ hj]
      simp [Nat.add_comm 1 j]

/-- Claim C4: a Decoder section that loads cleanly with effective pool
size `p` (`pool_size` if non-zero, else the global `DecoderPoolSize`)
stores its wrapper in `DecoderWrappers`, installs
`decoderChannels[section]` as a channel of capacity `p` holding exactly
`p` started runners named `<section>-0 … <section>-(p-1)` — slot 0
wrapping the already-initialized plugin (instance 0), each later slot a
fresh wrapper-minted plugin (instance `i`) — and appends the `p` runners
to `allDecoders` (raising `decodersWg` by `p`). -/
theorem C4_decoder_pool_spec (g : GlobalConfigStruct) (reg reg' : Registry)
    (self : PipelineConfig) (name : String) (pg : PluginGlobals)
    (derr : String) (cfgv : ConfigVal) (mc : Except String Nat) (p : Nat)
    (hcont : reg.availablePlugins.contains (resolvedPluginType name pg) = true)
    (hcat : pluginCategoryOf (resolvedPluginType name pg) = some "Decoder")
    (hreg : (if pg.encoding ≠ "" then
        regDecoderForHeader reg (resolvedPluginType name pg) pg.encoding
      else (reg, none)) = (reg', none))
    (hp : (if pg.poolSize = 0 then g.decoderPoolSize else pg.poolSize) = p)
    (hp1 : 1 ≤ p) :
    (PipelineConfig.loadSection g reg self name
        { globalsDecode := some pg, globalsDecodeErr := derr
          configLoad := Except.ok cfgv, initErr := none
          matcherCompile := mc } =
      (reg',
       { self with
         DecoderWrappers :=
           insertAssoc self.DecoderWrappers name
             { name := name, pluginType := resolvedPluginType name pg
               configVal := cfgv }
         decodersWg :=
           self.decodersWg +
             (decoderPoolRunners name (resolvedPluginType name pg) p).length
         allDecoders :=
           self.allDecoders ++
             decoderPoolRunners name (resolvedPluginType name pg) p
         decoderChannels :=
           insertAssoc self.decoderChannels name
             { capacity := p
               contents :=
                 decoderPoolRunners name (resolvedPluginType name pg) p } },
       0)) ∧
    lookupAssoc
        (PipelineConfig.loadSection g reg self name
          { globalsDecode := some pg, globalsDecodeErr := derr
            configLoad := Except.ok cfgv, initErr := none
            matcherCompile := mc }).2.1.DecoderWrappers name =
      some { name := name, pluginType := resolvedPluginType name pg
             configVal := cfgv } ∧
    lookupAssoc
        (PipelineConfig.loadSection g reg self name
          { globalsDecode := some pg, globalsDecodeErr := derr
            configLoad := Except.ok cfgv, initErr := none
            matcherCompile := mc }).2.1.decoderChannels name =
      some { capacity := p
             contents := decoderPoolRunners name (resolvedPluginType name pg) p } ∧
    (decoderPoolRunners name (resolvedPluginType name pg) p).length = p ∧
    (∀ i, i < p →
      (decoderPoolRunners name (resolvedPluginType name pg) p)[i]? =
        some (mkDecoderRunner name (resolvedPluginType name pg) i)) := by
  have hmem : resolvedPluginType name pg ∈ reg.availablePlugins := by
    simpa using hcont
  have heq :
      PipelineConfig.loadSection g reg self name
          { globalsDecode := some pg, globalsDecodeErr := derr
            configLoad := Except.ok cfgv, initErr := none
            matcherCompile := mc } =
        (reg',
         { self with
           DecoderWrappers :=
             insertAssoc self.DecoderWrappers name
               { name := name, pluginType := resolvedPluginType name pg
                 configVal := cfgv }
           decodersWg :=
             self.decodersWg +
               (decoderPoolRunners name (resolvedPluginType name pg) p).length
           allDecoders :=
             self.allDecoders ++
               decoderPoolRunners name (resolvedPluginType name pg) p
           decoderChannels :=
             insertAssoc self.decoderChannels name
               { capacity := p
                 contents :=
                   decoderPoolRunners name (resolvedPluginType name pg) p } },
         0) := by
    simp only [PipelineConfig.loadSection, hmem, hcat, hreg, hp]
    simpa using hmem
  refine ⟨heq, ?_, ?_, decoderPoolRunners_length _ _ _ hp1,
    fun i hi => decoderPoolRunners_getElem _ _ _ i hi⟩
  · rw [heq]
    exact lookupAssoc_insertAssoc_self _ _ _
  · rw [heq]
    exact lookupAssoc_insertAssoc_self _ _ _

/-- The `PluginGlobals` of scenario S1's section
`A = (type = JsonDecoder, encoding_name = JSON)`. -/
def sectionAGlobals : PluginGlobals :=
  { emptyPluginGlobals with typ := "JsonDecoder", encoding := "JSON" }

/-- The registry state after `regDecoderForHeader` binds `JSON` to
`JsonDecoder` over the `init()` registry. -/
def jsonBoundRegistry : Registry :=
  { initRegistry with decodersByEncoding := [(0, "JsonDecoder")] }

/-- Evaluation of `C4_decoder_pool_spec` on scenario S1: section `A` of
type `JsonDecoder` bound to `JSON`, default pool size 4. -/
theorem C4_witness :
    lookupAssoc
        (PipelineConfig.loadSection defaultGlobals initRegistry cfgEmpty "A"
          { globalsDecode := some sectionAGlobals, globalsDecodeErr := ""
            configLoad := Except.ok { raw := "" }, initErr := none
            matcherCompile := Except.error "" }).2.1.DecoderWrappers "A" =
      some { name := "A", pluginType := resolvedPluginType "A" sectionAGlobals
             configVal := { raw := "" } } ∧
    lookupAssoc
        (PipelineConfig.loadSection defaultGlobals initRegistry cfgEmpty "A"
          { globalsDecode := some sectionAGlobals, globalsDecodeErr := ""
            configLoad := Except.ok { raw := "" }, initErr := none
            matcherCompile := Except.error "" }).2.1.decoderChannels "A" =
      some { capacity := 4
             contents :=
               decoderPoolRunners "A" (resolvedPluginType "A" sectionAGlobals) 4 } ∧
    (decoderPoolRunners "A" (resolvedPluginType "A" sectionAGlobals) 4).length =
      4 ∧
    (decoderPoolRunners "A" (resolvedPluginType "A" sectionAGlobals) 4)[2]? =
      some (mkDecoderRunner "A" (resolvedPluginType "A" sectionAGlobals) 2) :=
  ⟨(C4_decoder_pool_spec defaultGlobals initRegistry jsonBoundRegistry cfgEmpty
      "A" sectionAGlobals "" { raw := "" } (Except.error "") 4 (by decide)
      (by decide) (by decide) (by decide) (by decide)).2.1,
   (C4_decoder_pool_spec defaultGlobals initRegistry jsonBoundRegistry cfgEmpty
      "A" sectionAGlobals "" { raw := "" } (Except.error "") 4 (by decide)
      (by decide) (by decide) (by decide) (by decide)).2.2.1,
   (C4_decoder_pool_spec defaultGlobals initRegistry jsonBoundRegistry cfgEmpty
      "A" sectionAGlobals "" { raw := "" } (Except.error "") 4 (by decide)
      (by decide) (by decide) (by decide) (by decide)).2.2.2.1,
   (C4_decoder_pool_spec defaultGlobals initRegistry jsonBoundRegistry cfgEmpty
      "A" sectionAGlobals "" { raw := "" } (Except.error "") 4 (by decide)
      (by decide) (by decide) (by decide) (by decide)).2.2.2.2 2 (by decide)⟩

/-! ## C5: unknown plugin type -/

/-- The section `Bad = (type = "NoSuchThing")` of scenario S3. -/
def badSection : TomlSection :=
  { globalsDecode := some { emptyPluginGlobals with typ := "NoSuchThing" }
    globalsDecodeErr := "", configLoad := Except.ok { raw := "" }
    initErr := none, matcherCompile := Except.error "" }

/-- Claim C5: a section whose resolved plugin type is not registered
contributes exactly one error and logs `No such plugin: <section name>`
(naming the section, not the type key), and `LoadFromConfigFile` then
fails with `<n> errors loading plugins`; concretely, the config
`(Bad = (type = "NoSuchThing"))` loads to `1 errors loading plugins`
with `No such plugin: Bad` among the log messages. -/
theorem C5_no_such_plugin_spec :
    (∀ (g : GlobalConfigStruct) (reg : Registry) (self : PipelineConfig)
        (name : String) (pg : PluginGlobals) (derr : String)
        (cl : Except String ConfigVal) (ie : Option String)
        (mc : Except String Nat),
      reg.availablePlugins.contains (resolvedPluginType name pg) = false →
      PipelineConfig.loadSection g reg self name
          { globalsDecode := some pg, globalsDecodeErr := derr
            configLoad := cl, initErr := ie, matcherCompile := mc } =
        (reg, self.log ("No such plugin: " ++ name), 1)) ∧
    (PipelineConfig.LoadFromConfigFile defaultGlobals initRegistry cfgEmpty
        [("Bad", badSection)]).2.2 = some "1 errors loading plugins" ∧
    (PipelineConfig.LoadFromConfigFile defaultGlobals initRegistry cfgEmpty
        [("Bad", badSection)]).2.1.logMsgs.contains "No such plugin: Bad" =
      true := by
  refine ⟨?_, by decide, by decide⟩
  intro g reg self name pg derr cl ie mc hcont
  have hmem : resolvedPluginType name pg ∉ reg.availablePlugins := by
    simpa using hcont
  simp [PipelineConfig.loadSection, hmem]

/-- Evaluation of `C5_no_such_plugin_spec` at the `Bad` section over the
`init()` registry. -/
theorem C5_witness :
    PipelineConfig.loadSection defaultGlobals initRegistry cfgEmpty "Bad"
        badSection =
      (initRegistry, cfgEmpty.log ("No such plugin: " ++ "Bad"), 1) :=
  C5_no_such_plugin_spec.1 defaultGlobals initRegistry cfgEmpty "Bad"
    { emptyPluginGlobals with typ := "NoSuchThing" } "" (Except.ok { raw := "" })
    none (Except.error "") (by decide)

/-! ## C8: built-in default decoders -/

/-- Claim C8: after the user sections, a missing `JsonDecoder` and a
missing `ProtobufDecoder` wrapper are synthesized from the built-in
default document through the same `loadSection` path, their errors
counted uniformly into the summary gate; concretely an empty config
loads cleanly to exactly the two default decoder wrappers bound to
encodings 0 (`JSON`) and 1 (`PROTOCOL_BUFFER`), with no input, filter or
output runners. -/
theorem C8_default_decoders_spec :
    (∀ (g : GlobalConfigStruct) (reg : Registry) (self : PipelineConfig)
        (configFile : List (String × TomlSection))
        (reg1 : Registry) (self1 : PipelineConfig) (n1 : Nat)
        (reg2 : Registry) (self2 : PipelineConfig) (n2 : Nat)
        (reg3 : Registry) (self3 : PipelineConfig) (n3 : Nat),
      loadConfigSections g reg self configFile = (reg1, self1, n1) →
      lookupAssoc self1.DecoderWrappers "JsonDecoder" = none →
      PipelineConfig.loadSection g reg1 self1 "JsonDecoder"
          defaultJsonSection = (reg2, self2, n2) →
      lookupAssoc self2.DecoderWrappers "ProtobufDecoder" = none →
      PipelineConfig.loadSection g reg2 self2 "ProtobufDecoder"
          defaultProtobufSection = (reg3, self3, n3) →
      PipelineConfig.LoadFromConfigFile g reg self configFile =
        (reg3, self3,
         if n1 + n2 + n3 ≠ 0 then
           some (toString (n1 + n2 + n3) ++ " errors loading plugins")
         else none)) ∧
    (PipelineConfig.LoadFromConfigFile defaultGlobals initRegistry cfgEmpty
        []).2.2 = none ∧
    lookupAssoc
        (PipelineConfig.LoadFromConfigFile defaultGlobals initRegistry cfgEmpty
          []).2.1.DecoderWrappers "JsonDecoder" =
      some { name := "JsonDecoder", pluginType := "JsonDecoder"
             configVal := { raw := "" } } ∧
    lookupAssoc
        (PipelineConfig.LoadFromConfigFile defaultGlobals initRegistry cfgEmpty
          []).2.1.DecoderWrappers "ProtobufDecoder" =
      some { name := "ProtobufDecoder", pluginType := "ProtobufDecoder"
             configVal := { raw := "" } } ∧
    lookupAssoc
        (PipelineConfig.LoadFromConfigFile defaultGlobals initRegistry cfgEmpty
          []).1.decodersByEncoding 0 = some "JsonDecoder" ∧
    lookupAssoc
        (PipelineConfig.LoadFromConfigFile defaultGlobals initRegistry cfgEmpty
          []).1.decodersByEncoding 1 = some "ProtobufDecoder" ∧
    (PipelineConfig.LoadFromConfigFile defaultGlobals initRegistry cfgEmpty
        []).2.1.InputRunners = [] ∧
    (PipelineConfig.LoadFromConfigFile defaultGlobals initRegistry cfgEmpty
        []).2.1.FilterRunners = [] ∧
    (PipelineConfig.LoadFromConfigFile defaultGlobals initRegistry cfgEmpty
        []).2.1.OutputRunners = [] := by
  refine ⟨?_, by decide, by decide, by decide, by decide, by decide, by decide,
    by decide, by decide⟩
  intro g reg self configFile reg1 self1 n1 reg2 self2 n2 reg3 self3 n3
    h1 hJ h2 hP h3
  simp only [PipelineConfig.LoadFromConfigFile, h1, hJ, h2, hP, h3]
  simp [hP, h3]

/-- The load of the default `JsonDecoder` section over the fresh state. -/
def s2AfterJson : Registry × PipelineConfig × Nat :=
  PipelineConfig.loadSection defaultGlobals initRegistry cfgEmpty "JsonDecoder"
    defaultJsonSection

/-- The load of the default `ProtobufDecoder` section after
`s2AfterJson`. -/
def s2AfterProtobuf : Registry × PipelineConfig × Nat :=
  PipelineConfig.loadSection defaultGlobals s2AfterJson.1 s2AfterJson.2.1
    "ProtobufDecoder" defaultProtobufSection

/-- Evaluation of `C8_default_decoders_spec` on the empty config: the
load is exactly the two chained default-decoder section loads. -/
theorem C8_witness :
    PipelineConfig.LoadFromConfigFile defaultGlobals initRegistry cfgEmpty [] =
      (s2AfterProtobuf.1, s2AfterProtobuf.2.1,
       if 0 + s2AfterJson.2.2 + s2AfterProtobuf.2.2 ≠ 0 then
         some (toString (0 + s2AfterJson.2.2 + s2AfterProtobuf.2.2) ++
           " errors loading plugins")
       else none) :=
  C8_default_decoders_spec.1 defaultGlobals initRegistry cfgEmpty []
    initRegistry cfgEmpty 0 s2AfterJson.1 s2AfterJson.2.1 s2AfterJson.2.2
    s2AfterProtobuf.1 s2AfterProtobuf.2.1 s2AfterProtobuf.2.2 rfl (by decide)
    rfl (by decide) rfl

end Heka
